import Mathlib

/-!
Shallow embedding of `src/app/main.py` (a FastAPI wrapper around
feiertage-api.de) together with proofs about the claims on its behaviour.

The embedding models:
* Python values that can appear in the upstream JSON (`PyVal`), with
  Python truthiness (`truthy`) and `str()` (`py_str`);
* `datetime.fromisoformat` restricted to naive dates and `HH[:MM[:SS]]`
  times (`fromisoformat`), together with `datetime`'s range validation;
* `extract_date`, the item-collection loop, the sort and the line
  generation of `holidays_to_ical` (lines 150-205 of the source);
* the upstream call `fetch_feiertage` (lines 106-147), with the
  transport layer abstracted into a `TransportOutcome` value;
* the first, validation step of the two route handlers (lines 208-260).

Exceptions are modelled with `Except`: `ValueError` raised by
`fromisoformat` is caught at its only call site, so string parsing is a
total `Option`-valued function, while the `TypeError` raised by calling
`fromisoformat` on a non-string is not caught and surfaces as
`Except.error PyError.typeError`.
-/

namespace Feiertage

/-- Python values that can occur in a decoded feiertage-api.de JSON body:
strings, integers, booleans, `None`, lists and string-keyed dicts
(dicts are association lists in insertion order, with unique keys). -/
inductive PyVal where
  | str (s : String)
  | int (n : Int)
  | bool (b : Bool)
  | none
  | list (xs : List PyVal)
  | dict (entries : List (String × PyVal))

/-- Python truthiness (`bool(v)`): empty strings, zero, `False`, `None`
and empty containers are falsy, everything else is truthy. -/
def truthy : PyVal → Bool
  | .str s => !(s == "")
  | .int n => !(n == 0)
  | .bool b => b
  | .none => false
  | .list xs => !xs.isEmpty
  | .dict es => !es.isEmpty

/-- Decimal representation of a natural number, as produced by Python
`str()` on a non-negative int. -/
def py_nat_repr (n : Nat) : String :=
  if n < 10 then String.mk [Nat.digitChar n]
  else py_nat_repr (n / 10) ++ String.mk [Nat.digitChar (n % 10)]
decreasing_by exact Nat.div_lt_self (by omega) (by omega)

/-- Python `str()` on an int: decimal digits with a leading minus sign
for negative numbers. -/
def py_int_repr (n : Int) : String :=
  if n < 0 then "-" ++ py_nat_repr n.natAbs else py_nat_repr n.toNat

mutual

/-- Python `repr()` on a `PyVal` (quote escaping inside string reprs is
not modelled; it never affects date parsing). -/
def py_repr : PyVal → String
  | .str s => "\x27" ++ s ++ "\x27"
  | .int n => py_int_repr n
  | .bool b => if b then "True" else "False"
  | .none => "None"
  | .list xs => "[" ++ py_repr_list xs ++ "]"
  | .dict es => "\x7b" ++ py_repr_entries es ++ "\x7d"

/-- Comma-joined reprs of the elements of a Python list. -/
def py_repr_list : List PyVal → String
  | [] => ""
  | [x] => py_repr x
  | x :: xs => py_repr x ++ ", " ++ py_repr_list xs

/-- Comma-joined `'key': value` reprs of the entries of a Python dict. -/
def py_repr_entries : List (String × PyVal) → String
  | [] => ""
  | [kv] => "\x27" ++ kv.1 ++ "\x27: " ++ py_repr kv.2
  | kv :: kvs => "\x27" ++ kv.1 ++ "\x27: " ++ py_repr kv.2 ++ ", " ++ py_repr_entries kvs

end

/-- Python `str()`: the identity on strings, `repr` otherwise. -/
def py_str : PyVal → String
  | .str s => s
  | v => py_repr v

/-- A `datetime.datetime` value: the fields produced by
`datetime.fromisoformat` (no microseconds or tzinfo, see
`fromisoformat`). -/
structure PyDateTime where
  year : Nat
  month : Nat
  day : Nat
  hour : Nat
  minute : Nat
  second : Nat
deriving DecidableEq, Repr

/-- The value of an ASCII digit character, `none` on anything else. -/
def digitVal (c : Char) : Option Nat :=
  if 48 ≤ c.toNat ∧ c.toNat ≤ 57 then some (c.toNat - 48) else none

/-- Two ASCII digits as a number below 100. -/
def digits2 (a b : Char) : Option Nat :=
  match digitVal a, digitVal b with
  | some x, some y => some (x * 10 + y)
  | _, _ => Option.none

/-- Four ASCII digits as a number below 10000. -/
def digits4 (a b c d : Char) : Option Nat :=
  match digitVal a, digitVal b, digitVal c, digitVal d with
  | some x, some y, some z, some w => some (((x * 10 + y) * 10 + z) * 10 + w)
  | _, _, _, _ => Option.none

/-- Whether a year is a Gregorian leap year (`calendar.isleap`). -/
def isLeap (y : Nat) : Bool :=
  y % 4 == 0 && (y % 100 != 0 || y % 400 == 0)

/-- Number of days in a month, as validated by the `datetime`
constructor. -/
def daysInMonth (y m : Nat) : Nat :=
  if m = 2 then (if isLeap y then 29 else 28)
  else if m = 4 ∨ m = 6 ∨ m = 9 ∨ m = 11 then 30
  else 31

/-- Parse and validate the `YYYY-MM-DD` digits of an ISO date string:
the digit conversion of `_parse_isoformat_date` plus the range checks
done by the `datetime` constructor (year 1-9999, month 1-12, day within
the month). -/
def parseDateDigits (y1 y2 y3 y4 m1 m2 d1 d2 : Char) : Option (Nat × Nat × Nat) :=
  match digits4 y1 y2 y3 y4, digits2 m1 m2, digits2 d1 d2 with
  | some y, some mo, some d =>
    if 1 ≤ y ∧ 1 ≤ mo ∧ mo ≤ 12 ∧ 1 ≤ d ∧ d ≤ daysInMonth y mo then
      some (y, mo, d)
    else
      Option.none
  | _, _, _ => Option.none

/-- Parse the time part of an ISO datetime string: `HH`, `HH:MM` or
`HH:MM:SS` with the `datetime` range checks (hour 0-23, minute and
second 0-59). CPython additionally accepts fractional seconds and a
UTC offset; those forms are not modelled (they never occur in holiday
data and no claim depends on them). -/
def parseTimePart : List Char → Option (Nat × Nat × Nat)
  | [h1, h2] =>
    match digits2 h1 h2 with
    | some h => if h ≤ 23 then some (h, 0, 0) else Option.none
    | Option.none => Option.none
  | [h1, h2, c1, m1, m2] =>
    if c1 = ':' then
      match digits2 h1 h2, digits2 m1 m2 with
      | some h, some mi => if h ≤ 23 ∧ mi ≤ 59 then some (h, mi, 0) else Option.none
      | _, _ => Option.none
    else Option.none
  | [h1, h2, c1, m1, m2, c2, s1, s2] =>
    if c1 = ':' ∧ c2 = ':' then
      match digits2 h1 h2, digits2 m1 m2, digits2 s1 s2 with
      | some h, some mi, some sec =>
        if h ≤ 23 ∧ mi ≤ 59 ∧ sec ≤ 59 then some (h, mi, sec) else Option.none
      | _, _, _ => Option.none
    else Option.none
  | _ => Option.none

/-- `datetime.fromisoformat` on a string: the first ten characters must
be a valid `YYYY-MM-DD` date; a longer string has one separator
character (ignored, as in CPython) at index 10 followed by a non-empty
time part. `none` models the `ValueError` raised on any other input. -/
def fromisoformat (s : String) : Option PyDateTime :=
  match s.data with
  | [y1, y2, y3, y4, '-', m1, m2, '-', d1, d2] =>
    (parseDateDigits y1 y2 y3 y4 m1 m2 d1 d2).map
      (fun ymd => ⟨ymd.1, ymd.2.1, ymd.2.2, 0, 0, 0⟩)
  | y1 :: y2 :: y3 :: y4 :: '-' :: m1 :: m2 :: '-' :: d1 :: d2 :: _sep :: tchars =>
    match parseDateDigits y1 y2 y3 y4 m1 m2 d1 d2, parseTimePart tchars with
    | some ymd, some t => some ⟨ymd.1, ymd.2.1, ymd.2.2, t.1, t.2.1, t.2.2⟩
    | _, _ => Option.none
  | _ => Option.none

/-- The uncaught Python exceptions of the modelled code: `fromisoformat`
applied to a non-string raises `TypeError`, which `extract_date` does
not catch (it only catches `ValueError`). -/
inductive PyError where
  | typeError
deriving DecidableEq, Repr

/-- The local `date_str` of `extract_date` (source lines 166-169): a
dict contributes its `datum` field (`None` when the key is absent),
any other value is passed through `str()`. -/
def date_str_of (value : PyVal) : PyVal :=
  match value with
  | .dict es => (es.lookup "datum").getD PyVal.none
  | v => .str (py_str v)

/-- `extract_date` (source lines 165-178): a falsy `date_str` yields
`None`; `fromisoformat` is then applied, with `ValueError` caught
(hence the `Option` result) but the `TypeError` raised on a non-string
`date_str` uncaught. -/
def extract_date (value : PyVal) : Except PyError (Option PyDateTime) :=
  if truthy (date_str_of value) then
    match date_str_of value with
    | .str s => .ok (fromisoformat s)
    | _ => .error .typeError
  else
    .ok Option.none

/-- The item-collection loop of `holidays_to_ical` (source lines
180-185): entries whose date extraction yields `None` are skipped, an
uncaught exception aborts the whole conversion. -/
def collectItems : List (String × PyVal) → Except PyError (List (String × PyDateTime))
  | [] => .ok []
  | (name, v) :: rest =>
    match extract_date v with
    | .error e => .error e
    | .ok dt? =>
      match collectItems rest with
      | .error e => .error e
      | .ok tail =>
        match dt? with
        | some dt => .ok ((name, dt) :: tail)
        | Option.none => .ok tail

/-- Numeric encoding of Python's `datetime` comparison: datetimes
compare lexicographically by (year, month, day, hour, minute, second),
and for the field ranges enforced by the constructor this agrees with
comparing `dtKey`. -/
def dtKey (dt : PyDateTime) : Nat :=
  ((((dt.year * 13 + dt.month) * 32 + dt.day) * 24 + dt.hour) * 60 + dt.minute) * 60 + dt.second

/-- The sort order used by `items.sort(key=lambda item: item[1])`:
compare items by their datetime. -/
def itemLe (a b : String × PyDateTime) : Prop := dtKey a.2 ≤ dtKey b.2

instance : DecidableRel itemLe := fun a b => Nat.decLe (dtKey a.2) (dtKey b.2)

instance : IsTotal (String × PyDateTime) itemLe := ⟨fun a b => Nat.le_total (dtKey a.2) (dtKey b.2)⟩

instance : IsTrans (String × PyDateTime) itemLe := ⟨fun _ _ _ h h' => Nat.le_trans h h'⟩

/-- `items.sort(key=lambda item: item[1])` (source line 188): Python's
sort is stable and ascending; it is modelled by a stable insertion
sort. -/
def sortItems (items : List (String × PyDateTime)) : List (String × PyDateTime) :=
  items.insertionSort itemLe

/-- A digit of `n` in a zero-padded two-character field, as printed by
`strftime` with `%m`/`%d`. -/
def pad2 (n : Nat) : String :=
  String.mk [Nat.digitChar (n / 10 % 10), Nat.digitChar (n % 10)]

/-- Zero-padded four-character field, as printed by `strftime` with
`%Y` for the four-digit years a `datetime` can hold. -/
def pad4 (n : Nat) : String :=
  String.mk [Nat.digitChar (n / 1000 % 10), Nat.digitChar (n / 100 % 10),
    Nat.digitChar (n / 10 % 10), Nat.digitChar (n % 10)]

/-- `dt.strftime("%Y%m%d")` (source line 191). -/
def date_compact (dt : PyDateTime) : String :=
  pad4 dt.year ++ pad2 dt.month ++ pad2 dt.day

/-- The event identifier of source line 192. -/
def uid (dt : PyDateTime) (scope : String) : String :=
  date_compact dt ++ "-" ++ scope ++ "@feiertage-wrapper"

/-- The six lines emitted per event (source lines 190-202); `now` is
the pre-formatted `datetime.utcnow().strftime("%Y%m%dT%H%M%SZ")`
value computed once per document. -/
def eventLines (scope now : String) (item : String × PyDateTime) : List String :=
  ["BEGIN:VEVENT",
   "UID:" ++ uid item.2 scope,
   "DTSTAMP:" ++ now,
   "DTSTART;VALUE=DATE:" ++ date_compact item.2,
   "SUMMARY:" ++ item.1,
   "END:VEVENT"]

/-- The document header of source lines 159-163. -/
def headerLines : List String :=
  ["BEGIN:VCALENDAR", "VERSION:2.0", "PRODID:-//feiertage-wrapper//DE"]

/-- The collected items of `holidays_to_ical` after sorting. -/
def icalItems (holidays : List (String × PyVal)) : Except PyError (List (String × PyDateTime)) :=
  (collectItems holidays).map sortItems

/-- The full line list of the generated calendar document (source lines
159-204). -/
def icalLines (holidays : List (String × PyVal)) (scope now : String) :
    Except PyError (List String) :=
  match collectItems holidays with
  | .error e => .error e
  | .ok items =>
    .ok (headerLines ++ (sortItems items).flatMap (eventLines scope now) ++ ["END:VCALENDAR"])

/-- `holidays_to_ical` (source lines 150-205): CRLF-joined lines with a
trailing CRLF; the current time is passed in as the pre-formatted
`now` string. -/
def holidays_to_ical (holidays : List (String × PyVal)) (scope now : String) :
    Except PyError String :=
  (icalLines holidays scope now).map (fun ls => String.intercalate "\r\n" ls ++ "\r\n")

/-- The recognized region codes (source lines 14-32): 16 subdivision
codes plus the nationwide code. -/
def VALID_STATES : List String :=
  ["NATIONAL", "BW", "BY", "BE", "BB", "HB", "HH", "HE", "MV", "NI", "NW", "RP",
   "SL", "SN", "ST", "SH", "TH"]

/-- What a route handler does before anything else: raise a 422
`HTTPException`, or proceed to call `fetch_feiertage` with the given
arguments. -/
inductive HandlerAction where
  | reject422 (detail : String)
  | callUpstream (jahr : Int) (nur_land : Option String) (nur_daten : Option Int)
deriving DecidableEq

/-- The first step of `get_feiertage` (source lines 228-231): an
invalid non-`None` `nur_land` raises a 422 before the upstream call.
FastAPI's own query validation (`jahr` range, `format` pattern) happens
before the handler body and is not modelled. -/
def get_feiertage_step (jahr : Int) (nur_land : Option String) (nur_daten : Option Int)
    (_format : String) : HandlerAction :=
  match nur_land with
  | some l =>
    if l ∈ VALID_STATES then .callUpstream jahr nur_land nur_daten
    else .reject422 "Ungültiges Bundesland-Kürzel."
  | Option.none => .callUpstream jahr nur_land nur_daten

/-- The first step of `get_feiertage_ical` (source lines 248-260): the
handler body calls `fetch_feiertage` immediately; it contains no region
validation. -/
def get_feiertage_ical_step (jahr : Int) (nur_land : Option String) (nur_daten : Option Int) :
    HandlerAction :=
  .callUpstream jahr nur_land nur_daten

/-- The query dict built by `fetch_feiertage` (source lines 112-116):
`jahr` always, `nur_land` only when truthy (i.e. present and
non-empty), `nur_daten` whenever not `None`; values stringified for
the wire. -/
def fetch_params (jahr : Int) (nur_land : Option String) (nur_daten : Option Int) :
    List (String × String) :=
  [("jahr", toString jahr)]
    ++ (match nur_land with
        | some s => if s = "" then [] else [("nur_land", s)]
        | Option.none => [])
    ++ (match nur_daten with
        | some n => [("nur_daten", toString n)]
        | Option.none => [])

/-- A FastAPI `HTTPException`: status code plus detail message. -/
structure HTTPException where
  status_code : Nat
  detail : String
deriving DecidableEq

/-- An upstream HTTP response as seen by the handler: the status code
and the outcome of `resp.json()` (`none` models the `ValueError`
raised on a body that is not valid JSON). -/
structure UpstreamResponse where
  status_code : Nat
  json : Option PyVal

/-- Outcome of the `httpx` call: a transport-level failure
(`httpx.HTTPError`, which includes timeouts) or a response. -/
inductive TransportOutcome where
  | httpError (msg : String)
  | response (resp : UpstreamResponse)

/-- The failure mapping of `fetch_feiertage` (source lines 118-147),
applied to the outcome of the outbound call: transport failure → 502;
non-200 status → that same status; unparseable JSON body → 502;
parsed body not a dict → 502; otherwise the parsed dict is returned
unchanged. -/
def fetch_feiertage (outcome : TransportOutcome) :
    Except HTTPException (List (String × PyVal)) :=
  match outcome with
  | .httpError msg =>
    .error ⟨502, "Fehler beim Aufruf von feiertage-api.de: " ++ msg⟩
  | .response resp =>
    if resp.status_code ≠ 200 then
      .error ⟨resp.status_code, "Upstream-API hat einen Fehler zurückgegeben."⟩
    else
      match resp.json with
      | Option.none => .error ⟨502, "Ungültiges JSON von feiertage-api.de."⟩
      | some (.dict es) => .ok es
      | some _ => .error ⟨502, "Unerwartetes Datenformat von feiertage-api.de."⟩

/-- Modelled from the spec words of claim C3: a date text "in the form
`YYYY-MM-DD`" denoting "a valid calendar date" — exactly ten
characters, four digits, dash, two digits, dash, two digits, with the
year, month and day in calendar range. Used to compare the spec
notion of accepted date texts with the code's `fromisoformat`. -/
def specIsYYYYMMDD (s : String) : Bool :=
  match s.data with
  | [y1, y2, y3, y4, '-', m1, m2, '-', d1, d2] =>
    (parseDateDigits y1 y2 y3 y4 m1 m2 d1 d2).isSome
  | _ => false

/-- Entry values on which `extract_date` cannot raise: everything
except a dict whose `datum` field is a truthy non-string. -/
def safeEntry (v : PyVal) : Bool :=
  match v with
  | .dict es =>
    match (es.lookup "datum").getD PyVal.none with
    | .str _ => true
    | x => !truthy x
  | _ => true

/-- Whether a Python value is a dict. -/
def isDictV : PyVal → Bool
  | .dict _ => true
  | _ => false

/-- Whether a Python value is a string. -/
def isStrV : PyVal → Bool
  | .str _ => true
  | _ => false

/-- The field ranges every `datetime` object satisfies; `fromisoformat`
can only construct such values. -/
def validDT (dt : PyDateTime) : Prop :=
  1 ≤ dt.year ∧ dt.year ≤ 9999 ∧ 1 ≤ dt.month ∧ dt.month ≤ 12 ∧
    1 ≤ dt.day ∧ dt.day ≤ 31 ∧ dt.hour ≤ 23 ∧ dt.minute ≤ 59 ∧ dt.second ≤ 59

/-- Python's `datetime` comparison, spelled out: lexicographic on
(year, month, day, hour, minute, second). -/
def dtLe (a b : PyDateTime) : Prop :=
  a.year < b.year ∨ (a.year = b.year ∧
    (a.month < b.month ∨ (a.month = b.month ∧
      (a.day < b.day ∨ (a.day = b.day ∧
        (a.hour < b.hour ∨ (a.hour = b.hour ∧
          (a.minute < b.minute ∨ (a.minute = b.minute ∧
            a.second ≤ b.second)))))))))

/-- Replace the timestamp line carrying `old` by the one carrying
`new`, leaving every other line unchanged. -/
def substStamp (old new : String) (l : String) : String :=
  if l = "DTSTAMP:" ++ old then "DTSTAMP:" ++ new else l

/-! ### Helper lemmas: parser bounds and field validity -/


theorem extract_date_str (s : String) : extract_date (.str s) = .ok (fromisoformat s) := by
  unfold extract_date date_str_of
  by_cases h : s = ""
  · subst h
    simp [truthy, py_str]
    rfl
  · simp [truthy, py_str, h]

theorem digitVal_le {c : Char} {k : Nat} (h : digitVal c = some k) : k ≤ 9 := by
  unfold digitVal at h
  split at h
  · rename_i hc
    injection h with h
    omega
  · simp at h

theorem digits2_le {a b : Char} {n : Nat} (h : digits2 a b = some n) : n ≤ 99 := by
  unfold digits2 at h
  split at h
  · rename_i x y hx hy
    injection h with h
    have := digitVal_le hx
    have := digitVal_le hy
    omega
  · simp at h

theorem digits4_le {a b c d : Char} {n : Nat} (h : digits4 a b c d = some n) : n ≤ 9999 := by
  unfold digits4 at h
  split at h
  · rename_i x y z w hx hy hz hw
    injection h with h
    have := digitVal_le hx
    have := digitVal_le hy
    have := digitVal_le hz
    have := digitVal_le hw
    omega
  · simp at h

theorem daysInMonth_le (y m : Nat) : daysInMonth y m ≤ 31 := by
  unfold daysInMonth
  split
  · split <;> omega
  · split <;> omega

theorem parseDateDigits_valid {y1 y2 y3 y4 m1 m2 d1 d2 : Char} {t : Nat × Nat × Nat}
    (h : parseDateDigits y1 y2 y3 y4 m1 m2 d1 d2 = some t) :
    1 ≤ t.1 ∧ t.1 ≤ 9999 ∧ 1 ≤ t.2.1 ∧ t.2.1 ≤ 12 ∧ 1 ≤ t.2.2 ∧ t.2.2 ≤ 31 := by
  unfold parseDateDigits at h
  split at h
  · rename_i y mo d hy hmo hd
    have hy' := digits4_le hy
    split at h
    · rename_i hc
      injection h with h
      subst h
      have := daysInMonth_le y mo
      dsimp only
      omega
    · simp at h
  · simp at h

theorem parseTimePart_valid {cs : List Char} {t : Nat × Nat × Nat}
    (h : parseTimePart cs = some t) : t.1 ≤ 23 ∧ t.2.1 ≤ 59 ∧ t.2.2 ≤ 59 := by
  unfold parseTimePart at h
  split at h
  · split at h
    · rename_i hh
      split at h
      · injection h with h
        subst h
        rename_i hc
        dsimp only
        omega
      · simp at h
    · simp at h
  · split at h
    · split at h
      · rename_i hh hmi
        split at h
        · injection h with h
          subst h
          rename_i hc
          dsimp only
          omega
        · simp at h
      · simp at h
    · simp at h
  · split at h
    · split at h
      · rename_i hh hmi hsec
        split at h
        · injection h with h
          subst h
          rename_i hc
          dsimp only
          omega
        · simp at h
      · simp at h
    · simp at h
  · simp at h

theorem fromisoformat_valid {s : String} {dt : PyDateTime}
    (h : fromisoformat s = some dt) : validDT dt := by
  unfold fromisoformat at h
  split at h
  · simp only [Option.map_eq_some'] at h
    obtain ⟨ymd, hymd, h⟩ := h
    subst h
    have := parseDateDigits_valid hymd
    simp only [validDT]
    omega
  · split at h
    · rename_i ymd t hymd ht
      injection h with h
      subst h
      have h1 := parseDateDigits_valid hymd
      have h2 := parseTimePart_valid ht
      simp only [validDT]
      omega
    · simp at h
  · simp at h

theorem extract_date_valid {v : PyVal} {dt : PyDateTime}
    (h : extract_date v = .ok (some dt)) : validDT dt := by
  unfold extract_date at h
  split at h
  · split at h
    · injection h with h
      exact fromisoformat_valid h
    · cases h
  · injection h with h
    cases h

theorem collectItems_valid {holidays : List (String × PyVal)}
    {items : List (String × PyDateTime)} (h : collectItems holidays = .ok items) :
    ∀ it ∈ items, validDT it.2 := by
  induction holidays generalizing items with
  | nil =>
    unfold collectItems at h
    injection h with h
    subst h
    simp
  | cons hd tl ih =>
    obtain ⟨name, v⟩ := hd
    unfold collectItems at h
    split at h
    · cases h
    · rename_i dt? he
      split at h
      · cases h
      · rename_i tail hc
        split at h
        · injection h with h
          subst h
          intro it hit
          rcases List.mem_cons.mp hit with h1 | h2
          · subst h1
            exact extract_date_valid he
          · exact ih hc it h2
        · injection h with h
          subst h
          exact ih hc
  
theorem dtKey_le_iff {a b : PyDateTime} (ha : validDT a) (hb : validDT b) :
    dtKey a ≤ dtKey b ↔ dtLe a b := by
  obtain ⟨a1, a2, a3, a4, a5, a6, a7, a8, a9⟩ := ha
  obtain ⟨b1, b2, b3, b4, b5, b6, b7, b8, b9⟩ := hb
  unfold dtKey dtLe
  omega


/-! ### Helper lemmas: totality of the conversion on safe values -/


theorem ne_empty_of_length_pos {s : String} (h : 0 < s.length) : s ≠ "" := by
  intro he
  rw [he] at h
  simp at h

theorem py_nat_repr_length_pos (n : Nat) : 0 < (py_nat_repr n).length := by
  unfold py_nat_repr
  split
  · exact Nat.one_pos
  · rw [String.length_append]
    have : (String.mk [Nat.digitChar (n % 10)]).length = 1 := rfl
    omega

theorem py_int_repr_ne_empty (n : Int) : py_int_repr n ≠ "" := by
  unfold py_int_repr
  split
  · apply ne_empty_of_length_pos
    rw [String.length_append]
    have := py_nat_repr_length_pos n.natAbs
    omega
  · exact ne_empty_of_length_pos (py_nat_repr_length_pos n.toNat)

theorem py_str_ne_empty {v : PyVal} (hs : isStrV v = false) : py_str v ≠ "" := by
  cases v with
  | str s => simp [isStrV] at hs
  | int n => exact py_int_repr_ne_empty n
  | bool b => cases b <;> simp [py_str, py_repr]
  | none => simp [py_str, py_repr]
  | list xs =>
    apply ne_empty_of_length_pos
    show 0 < ("[" ++ py_repr_list xs ++ "]").length
    rw [String.length_append, String.length_append]
    have : ("[" : String).length = 1 := rfl
    omega
  | dict es =>
    apply ne_empty_of_length_pos
    show 0 < ("\x7b" ++ py_repr_entries es ++ "\x7d").length
    rw [String.length_append, String.length_append]
    have : ("\x7b" : String).length = 1 := rfl
    omega

theorem extract_date_str_val {v : PyVal} {s : String} (h : date_str_of v = .str s)
    (hs : s ≠ "") : extract_date v = .ok (fromisoformat s) := by
  unfold extract_date
  rw [h]
  simp [truthy, hs]

theorem extract_date_nondict_nonstr {v : PyVal} (hd : isDictV v = false)
    (hs : isStrV v = false) : extract_date v = .ok (fromisoformat (py_str v)) := by
  cases v with
  | str s => simp [isStrV] at hs
  | dict es => simp [isDictV] at hd
  | int n => exact extract_date_str_val rfl (py_str_ne_empty hs)
  | bool b => exact extract_date_str_val rfl (py_str_ne_empty hs)
  | none => exact extract_date_str_val rfl (py_str_ne_empty hs)
  | list xs => exact extract_date_str_val rfl (py_str_ne_empty hs)

theorem extract_date_dict_falsy {es : List (String × PyVal)}
    (h : truthy ((es.lookup "datum").getD PyVal.none) = false) :
    extract_date (.dict es) = .ok Option.none := by
  unfold extract_date date_str_of
  simp [h]

theorem extract_date_ok_of_safe {v : PyVal} (h : safeEntry v = true) :
    ∃ o, extract_date v = .ok o := by
  cases v with
  | dict es =>
    cases htr : truthy ((es.lookup "datum").getD PyVal.none) with
    | false => exact ⟨Option.none, extract_date_dict_falsy htr⟩
    | true =>
      cases hv : (es.lookup "datum").getD PyVal.none with
      | str s =>
        refine ⟨fromisoformat s, ?_⟩
        have hts : truthy (PyVal.str s) = true := hv ▸ htr
        unfold extract_date date_str_of
        simp only []
        rw [hv, hts]
        simp
      | int n =>
        exfalso
        simp only [safeEntry, hv] at h
        rw [hv] at htr
        rw [htr] at h
        simp at h
      | bool b =>
        exfalso
        simp only [safeEntry, hv] at h
        rw [hv] at htr
        rw [htr] at h
        simp at h
      | none =>
        exfalso
        rw [hv] at htr
        simp [truthy] at htr
      | list xs =>
        exfalso
        simp only [safeEntry, hv] at h
        rw [hv] at htr
        rw [htr] at h
        simp at h
      | dict es' =>
        exfalso
        simp only [safeEntry, hv] at h
        rw [hv] at htr
        rw [htr] at h
        simp at h
  | str s => exact ⟨fromisoformat s, extract_date_str s⟩
  | int n => exact ⟨fromisoformat (py_str (.int n)), extract_date_nondict_nonstr rfl rfl⟩
  | bool b => exact ⟨fromisoformat (py_str (.bool b)), extract_date_nondict_nonstr rfl rfl⟩
  | none => exact ⟨fromisoformat (py_str PyVal.none), extract_date_nondict_nonstr rfl rfl⟩
  | list xs => exact ⟨fromisoformat (py_str (.list xs)), extract_date_nondict_nonstr rfl rfl⟩

theorem collectItems_ok_of_safe {holidays : List (String × PyVal)}
    (h : ∀ v ∈ holidays.map Prod.snd, safeEntry v = true) :
    ∃ items, collectItems holidays = .ok items := by
  induction holidays with
  | nil => exact ⟨[], rfl⟩
  | cons hd tl ih =>
    obtain ⟨name, v⟩ := hd
    obtain ⟨o, ho⟩ := extract_date_ok_of_safe (h v (by simp))
    obtain ⟨tail, htail⟩ := ih (fun w hw => h w (by rw [List.map_cons]; exact List.mem_cons_of_mem _ hw))
    unfold collectItems
    rw [ho, htail]
    cases o with
    | some dt => exact ⟨(name, dt) :: tail, rfl⟩
    | none => exact ⟨tail, rfl⟩

theorem holidays_to_ical_ok_of_safe {holidays : List (String × PyVal)} (scope now : String)
    (h : ∀ v ∈ holidays.map Prod.snd, safeEntry v = true) :
    (holidays_to_ical holidays scope now).isOk = true := by
  obtain ⟨items, hi⟩ := collectItems_ok_of_safe h
  unfold holidays_to_ical icalLines
  rw [hi]
  rfl


/-! ### Helper lemmas: identifier injectivity and line-shape facts -/


theorem digitChar_inj : ∀ a, a < 10 → ∀ b, b < 10 → Nat.digitChar a = Nat.digitChar b → a = b := by
  decide

theorem date_compact_data (dt : PyDateTime) :
    (date_compact dt).data =
      [Nat.digitChar (dt.year / 1000 % 10), Nat.digitChar (dt.year / 100 % 10),
       Nat.digitChar (dt.year / 10 % 10), Nat.digitChar (dt.year % 10),
       Nat.digitChar (dt.month / 10 % 10), Nat.digitChar (dt.month % 10),
       Nat.digitChar (dt.day / 10 % 10), Nat.digitChar (dt.day % 10)] := rfl

theorem date_compact_data_inj {a b : PyDateTime} (ha : validDT a) (hb : validDT b)
    (hd : (date_compact a).data = (date_compact b).data) :
    a.year = b.year ∧ a.month = b.month ∧ a.day = b.day := by
  rw [date_compact_data, date_compact_data] at hd
  simp only [List.cons.injEq, and_true] at hd
  obtain ⟨e1, e2, e3, e4, e5, e6, e7, e8⟩ := hd
  have m10 : ∀ k : Nat, k % 10 < 10 := fun k => Nat.mod_lt _ (by omega)
  have f1 := digitChar_inj _ (m10 _) _ (m10 _) e1
  have f2 := digitChar_inj _ (m10 _) _ (m10 _) e2
  have f3 := digitChar_inj _ (m10 _) _ (m10 _) e3
  have f4 := digitChar_inj _ (m10 _) _ (m10 _) e4
  have f5 := digitChar_inj _ (m10 _) _ (m10 _) e5
  have f6 := digitChar_inj _ (m10 _) _ (m10 _) e6
  have f7 := digitChar_inj _ (m10 _) _ (m10 _) e7
  have f8 := digitChar_inj _ (m10 _) _ (m10 _) e8
  obtain ⟨a1, a2, a3, a4, a5, a6, _, _, _⟩ := ha
  obtain ⟨b1, b2, b3, b4, b5, b6, _, _, _⟩ := hb
  refine ⟨by omega, by omega, by omega⟩

theorem uid_inj {a b : PyDateTime} (scope : String) (ha : validDT a) (hb : validDT b)
    (h : uid a scope = uid b scope) :
    a.year = b.year ∧ a.month = b.month ∧ a.day = b.day := by
  apply date_compact_data_inj ha hb
  have hd := congrArg String.data h
  unfold uid at hd
  simp only [String.data_append, List.append_assoc] at hd
  have hlen : (date_compact a).data.length = (date_compact b).data.length := by
    rw [date_compact_data, date_compact_data]
    rfl
  exact List.append_inj_left hd hlen

theorem str_ne_of_get {s t : String} (i : Nat) (h : s.data[i]? ≠ t.data[i]?) : s ≠ t :=
  fun he => h (by rw [he])

theorem append_get_left (p c : String) (i : Nat) (hp : i < p.data.length) :
    (p ++ c).data[i]? = p.data[i]? := by
  rw [String.data_append]
  exact List.getElem?_append_left hp

theorem begin_event_ne_stamp (x : String) : "BEGIN:VEVENT" ≠ "DTSTAMP:" ++ x := by
  apply str_ne_of_get 0
  rw [append_get_left "DTSTAMP:" x 0 (by decide)]
  decide

theorem uid_line_ne_stamp (u x : String) : "UID:" ++ u ≠ "DTSTAMP:" ++ x := by
  apply str_ne_of_get 0
  rw [append_get_left "UID:" u 0 (by decide), append_get_left "DTSTAMP:" x 0 (by decide)]
  decide

theorem dtstart_ne_stamp (c x : String) : "DTSTART;VALUE=DATE:" ++ c ≠ "DTSTAMP:" ++ x := by
  apply str_ne_of_get 5
  rw [append_get_left "DTSTART;VALUE=DATE:" c 5 (by decide),
    append_get_left "DTSTAMP:" x 5 (by decide)]
  decide

theorem summary_ne_stamp (n x : String) : "SUMMARY:" ++ n ≠ "DTSTAMP:" ++ x := by
  apply str_ne_of_get 0
  rw [append_get_left "SUMMARY:" n 0 (by decide), append_get_left "DTSTAMP:" x 0 (by decide)]
  decide

theorem end_event_ne_stamp (x : String) : "END:VEVENT" ≠ "DTSTAMP:" ++ x := by
  apply str_ne_of_get 0
  rw [append_get_left "DTSTAMP:" x 0 (by decide)]
  decide

theorem begin_cal_ne_stamp (x : String) : "BEGIN:VCALENDAR" ≠ "DTSTAMP:" ++ x := by
  apply str_ne_of_get 0
  rw [append_get_left "DTSTAMP:" x 0 (by decide)]
  decide

theorem version_ne_stamp (x : String) : "VERSION:2.0" ≠ "DTSTAMP:" ++ x := by
  apply str_ne_of_get 0
  rw [append_get_left "DTSTAMP:" x 0 (by decide)]
  decide

theorem prodid_ne_stamp (x : String) : "PRODID:-//feiertage-wrapper//DE" ≠ "DTSTAMP:" ++ x := by
  apply str_ne_of_get 0
  rw [append_get_left "DTSTAMP:" x 0 (by decide)]
  decide

theorem end_cal_ne_stamp (x : String) : "END:VCALENDAR" ≠ "DTSTAMP:" ++ x := by
  apply str_ne_of_get 0
  rw [append_get_left "DTSTAMP:" x 0 (by decide)]
  decide

theorem stamp_inj (a x : String) : ("DTSTAMP:" ++ a = "DTSTAMP:" ++ x) ↔ a = x := by
  constructor
  · intro h
    have hd := congrArg String.data h
    simp only [String.data_append] at hd
    exact String.ext (List.append_inj_right hd rfl)
  · intro h
    rw [h]


/-! ### Helper lemmas: timestamp substitution and counting -/


theorem substStamp_eventLines (scope old new : String) (it : String × PyDateTime) :
    (eventLines scope old it).map (substStamp old new) = eventLines scope new it := by
  simp only [eventLines, List.map_cons, List.map_nil, substStamp]
  rw [if_neg (begin_event_ne_stamp old), if_neg (uid_line_ne_stamp _ old),
    if_neg (dtstart_ne_stamp _ old), if_neg (summary_ne_stamp _ old),
    if_neg (end_event_ne_stamp old)]
  simp

theorem substStamp_headerLines (old new : String) :
    headerLines.map (substStamp old new) = headerLines := by
  simp only [headerLines, List.map_cons, List.map_nil, substStamp]
  rw [if_neg (begin_cal_ne_stamp old), if_neg (version_ne_stamp old),
    if_neg (prodid_ne_stamp old)]

theorem substStamp_flat (scope old new : String) (l : List (String × PyDateTime)) :
    (l.flatMap (eventLines scope old)).map (substStamp old new) =
      l.flatMap (eventLines scope new) := by
  induction l with
  | nil => rfl
  | cons hd tl ih =>
    simp only [List.flatMap_cons, List.map_append, ih, substStamp_eventLines]

theorem count_eventLines (scope now : String) (it : String × PyDateTime) :
    (eventLines scope now it).count ("DTSTAMP:" ++ now) = 1 := by
  simp only [eventLines, List.count_cons, List.count_nil, beq_iff_eq]
  rw [if_neg (begin_event_ne_stamp now), if_neg (uid_line_ne_stamp _ now),
    if_neg (dtstart_ne_stamp _ now), if_neg (summary_ne_stamp _ now),
    if_neg (end_event_ne_stamp now)]
  simp

theorem count_flat (scope now : String) (l : List (String × PyDateTime)) :
    (l.flatMap (eventLines scope now)).count ("DTSTAMP:" ++ now) = l.length := by
  induction l with
  | nil => rfl
  | cons hd tl ih =>
    simp only [List.flatMap_cons, List.count_append, ih, count_eventLines, List.length_cons]
    omega

theorem count_headerLines (now : String) :
    headerLines.count ("DTSTAMP:" ++ now) = 0 := by
  simp only [headerLines, List.count_cons, List.count_nil, beq_iff_eq]
  rw [if_neg (begin_cal_ne_stamp now), if_neg (version_ne_stamp now),
    if_neg (prodid_ne_stamp now)]

theorem count_footer (now : String) :
    (["END:VCALENDAR"] : List String).count ("DTSTAMP:" ++ now) = 0 := by
  simp only [List.count_cons, List.count_nil, beq_iff_eq]
  rw [if_neg (end_cal_ne_stamp now)]

theorem substStamp_footer (old new : String) :
    (["END:VCALENDAR"] : List String).map (substStamp old new) = ["END:VCALENDAR"] := by
  simp only [List.map_cons, List.map_nil, substStamp]
  rw [if_neg (end_cal_ne_stamp old)]


/-! ### Claim theorems -/


/-- C1: the claim states that both `GET /` and `GET /ical` reject a
present-but-unrecognized `nur_land` with a 422 before any upstream
call. Evaluating the handlers at the failing input `jahr=2024,
nur_land="XX"` shows the code diverges on `/ical`: `get_feiertage`
rejects with 422, but `get_feiertage_ical` contains no region
validation and proceeds straight to the upstream call. -/
theorem c1_ical_skips_region_validation :
    "XX" ∉ VALID_STATES
      ∧ get_feiertage_step 2024 (some "XX") Option.none "json"
          = .reject422 "Ungültiges Bundesland-Kürzel."
      ∧ get_feiertage_ical_step 2024 (some "XX") Option.none
          = .callUpstream 2024 (some "XX") Option.none := by
  refine ⟨by decide, by decide, rfl⟩

/-- C2 counterexample: the claim states the conversion never raises for
any entry value, including non-string `datum` fields; but a dict entry
with the truthy non-string `datum` value `5` reaches `fromisoformat`
uncaught (`TypeError`), aborting the whole conversion. -/
theorem c2_counterexample_nonstring_datum :
    holidays_to_ical [("A", PyVal.dict [("datum", PyVal.int 5)])] "NATIONAL" "20240101T000000Z"
      = .error PyError.typeError := rfl

/-- C2 amended: the conversion returns normally on every input whose
dict-shaped entries carry a string (or falsy/absent) `datum`;
unparseable dates are skipped rather than failing the conversion.
Only a dict entry whose `datum` is a truthy non-string makes it
raise. -/
theorem c2_conversion_total_on_safe_values (holidays : List (String × PyVal))
    (scope now : String) (h : ∀ v ∈ holidays.map Prod.snd, safeEntry v = true) :
    (holidays_to_ical holidays scope now).isOk = true :=
  holidays_to_ical_ok_of_safe scope now h

/-- Witness for C2: a concrete safe input evaluates to a successful
conversion. -/
theorem c2_witness :
    (holidays_to_ical
        [("Neujahr", PyVal.dict [("datum", PyVal.str "2024-01-01"), ("hinweis", PyVal.str "n")]),
         ("Dreikönig", PyVal.str "2024-01-06"),
         ("Leer", PyVal.dict [("hinweis", PyVal.str "kein Datum")])]
        "BY" "20240101T000000Z").isOk = true :=
  c2_conversion_total_on_safe_values _ "BY" "20240101T000000Z" (by decide)

/-- C3 counterexample: the claim states an entry is kept only if its
date text has the form `YYYY-MM-DD`; but the ISO datetime text
`2024-01-01T10:00:00`, which is not of that form, is parsed by
`fromisoformat` and kept. -/
theorem c3_counterexample_datetime_text_kept :
    specIsYYYYMMDD "2024-01-01T10:00:00" = false
      ∧ collectItems [("A", PyVal.str "2024-01-01T10:00:00")]
          = .ok [("A", ⟨2024, 1, 1, 10, 0, 0⟩)] := ⟨rfl, rfl⟩

/-- C3 amended: a string-valued entry is kept exactly when
`fromisoformat` accepts its date text; every valid `YYYY-MM-DD` text
is accepted (so kept), invalid dates such as `2024-13-40` are dropped
without failing the conversion, but the accepted set is strictly
larger than the `YYYY-MM-DD` forms. -/
theorem c3_keep_iff_fromisoformat :
    (∀ name s rest, collectItems ((name, PyVal.str s) :: rest)
        = (collectItems rest).map (fun tail =>
            match fromisoformat s with
            | some dt => (name, dt) :: tail
            | Option.none => tail))
    ∧ (∀ s, specIsYYYYMMDD s = true → (fromisoformat s).isSome = true)
    ∧ icalItems [("A", PyVal.str "2024-13-40"), ("B", PyVal.str "2024-01-01")]
        = .ok [("B", ⟨2024, 1, 1, 0, 0, 0⟩)] := by
  refine ⟨?_, ?_, rfl⟩
  · intro name s rest
    cases hc : collectItems rest with
    | error e =>
      simp only [collectItems, extract_date_str, hc, Except.map]
    | ok tail =>
      simp only [collectItems, extract_date_str, hc, Except.map]
      cases hf : fromisoformat s <;> simp
  · intro s h
    unfold specIsYYYYMMDD at h
    unfold fromisoformat
    split at h
    · rename_i y1 y2 y3 y4 m1 m2 d1 d2 heq
      rw [heq]
      simpa using h
    · simp at h

/-- Witness for C3: the valid date text `2024-02-29` (a leap day) is of
the `YYYY-MM-DD` form and is accepted by the parser. -/
theorem c3_witness : (fromisoformat "2024-02-29").isSome = true :=
  c3_keep_iff_fromisoformat.2.1 "2024-02-29" (by decide)


/-- C4: the upstream failure mapping: transport failure (including
timeout) → 502; non-200 upstream status → that same status (e.g. 404
surfaces as 404); unparseable JSON body → 502; parsed body that is not
a dict → 502; a 200 response with a dict body is returned unchanged. -/
theorem c4_fetch_error_mapping :
    (∀ msg, fetch_feiertage (.httpError msg)
        = .error ⟨502, "Fehler beim Aufruf von feiertage-api.de: " ++ msg⟩)
    ∧ (∀ resp, resp.status_code ≠ 200 → fetch_feiertage (.response resp)
        = .error ⟨resp.status_code, "Upstream-API hat einen Fehler zurückgegeben."⟩)
    ∧ fetch_feiertage (.response ⟨200, Option.none⟩)
        = .error ⟨502, "Ungültiges JSON von feiertage-api.de."⟩
    ∧ (∀ v, isDictV v = false → fetch_feiertage (.response ⟨200, some v⟩)
        = .error ⟨502, "Unerwartetes Datenformat von feiertage-api.de."⟩)
    ∧ (∀ es, fetch_feiertage (.response ⟨200, some (.dict es)⟩) = .ok es) := by
  refine ⟨fun msg => rfl, ?_, rfl, ?_, fun es => rfl⟩
  · intro resp h
    simp only [fetch_feiertage]
    rw [if_pos h]
  · intro v h
    cases v with
    | dict es => simp [isDictV] at h
    | str s => rfl
    | int n => rfl
    | bool b => rfl
    | none => rfl
    | list xs => rfl

/-- Witness for C4: an upstream 404 surfaces as 404 (not 502), and a
200 response with a non-dict JSON body surfaces as 502. -/
theorem c4_witness :
    fetch_feiertage (.response ⟨404, Option.none⟩)
        = .error ⟨404, "Upstream-API hat einen Fehler zurückgegeben."⟩
      ∧ fetch_feiertage (.response ⟨200, some (PyVal.list [])⟩)
        = .error ⟨502, "Unerwartetes Datenformat von feiertage-api.de."⟩ :=
  ⟨c4_fetch_error_mapping.2.1 ⟨404, Option.none⟩ (by decide),
   c4_fetch_error_mapping.2.2.2.1 (PyVal.list []) rfl⟩

/-- C5 counterexample: the claim states per-document UIDs are pairwise
distinct; but two holidays on the same date yield the same UID, since
the UID depends only on the compact date and the scope. -/
theorem c5_counterexample_duplicate_uid :
    collectItems [("A", PyVal.str "2024-01-01"), ("B", PyVal.str "2024-01-01")]
      = .ok [("A", ⟨2024, 1, 1, 0, 0, 0⟩), ("B", ⟨2024, 1, 1, 0, 0, 0⟩)]
    ∧ ((sortItems [("A", ⟨2024, 1, 1, 0, 0, 0⟩), ("B", ⟨2024, 1, 1, 0, 0, 0⟩)]).map
        (fun it => uid it.2 "NATIONAL"))
      = ["20240101-NATIONAL@feiertage-wrapper", "20240101-NATIONAL@feiertage-wrapper"]
    ∧ ¬ (["20240101-NATIONAL@feiertage-wrapper",
          "20240101-NATIONAL@feiertage-wrapper"] : List String).Nodup :=
  ⟨rfl, rfl, by decide⟩

/-- C5 amended: the UID is derived from the compact date and the scope
alone, so the UIDs of one document are pairwise distinct exactly when
the surviving entries fall on pairwise distinct calendar days; in
particular they are distinct whenever no two entries share a
(year, month, day) triple. -/
theorem c5_uid_distinct_on_distinct_dates (holidays : List (String × PyVal)) (scope : String)
    (items : List (String × PyDateTime)) (hc : collectItems holidays = .ok items)
    (hdates : items.Pairwise (fun x y =>
        x.2.year ≠ y.2.year ∨ x.2.month ≠ y.2.month ∨ x.2.day ≠ y.2.day)) :
    ((sortItems items).map (fun it => uid it.2 scope)).Nodup := by
  have hvalid := collectItems_valid hc
  have hitems : items.Pairwise (fun x y => uid x.2 scope ≠ uid y.2 scope) := by
    refine hdates.imp_of_mem ?_
    intro a b ha hb hne huid
    obtain ⟨hy, hm, hd⟩ := uid_inj scope (hvalid a ha) (hvalid b hb) huid
    rcases hne with h | h | h
    · exact h hy
    · exact h hm
    · exact h hd
  have hperm : (sortItems items).Perm items := List.perm_insertionSort itemLe items
  have hsorted : (sortItems items).Pairwise (fun x y => uid x.2 scope ≠ uid y.2 scope) :=
    (hperm.pairwise_iff (fun hxy => Ne.symm hxy)).mpr hitems
  exact hsorted.map _ (fun a b h => h)

/-- Witness for C5: two entries on distinct days produce distinct
UIDs. -/
theorem c5_witness :
    ((sortItems [("Neujahr", ⟨2024, 1, 1, 0, 0, 0⟩),
        ("Tag der Arbeit", ⟨2024, 5, 1, 0, 0, 0⟩)]).map (fun it => uid it.2 "BW")).Nodup :=
  c5_uid_distinct_on_distinct_dates
    [("Neujahr", PyVal.str "2024-01-01"), ("Tag der Arbeit", PyVal.str "2024-05-01")] "BW"
    _ rfl (by decide)

/-- C6: the surviving items are emitted in ascending datetime order
(`dtLe` is Python's lexicographic datetime comparison), the sort is
stable (any equal-key pair keeps its original relative order), and the
spec's concrete example sorts `2024-12-25, 2024-01-01, 2024-05-01`
into `01-01, 05-01, 12-25`. -/
theorem c6_sorted_stable (holidays : List (String × PyVal))
    (items : List (String × PyDateTime)) (hc : collectItems holidays = .ok items) :
    ((sortItems items).Pairwise (fun a b => dtLe a.2 b.2))
    ∧ (∀ a b, dtKey a.2 = dtKey b.2 → List.Sublist [a, b] items →
        List.Sublist [a, b] (sortItems items))
    ∧ icalItems [("Weihnachten", PyVal.str "2024-12-25"), ("Neujahr", PyVal.str "2024-01-01"),
        ("Tag der Arbeit", PyVal.str "2024-05-01")]
      = .ok [("Neujahr", ⟨2024, 1, 1, 0, 0, 0⟩), ("Tag der Arbeit", ⟨2024, 5, 1, 0, 0, 0⟩),
             ("Weihnachten", ⟨2024, 12, 25, 0, 0, 0⟩)] := by
  have hvalid := collectItems_valid hc
  refine ⟨?_, ?_, rfl⟩
  · have hs : (sortItems items).Pairwise itemLe := List.sorted_insertionSort itemLe items
    refine hs.imp_of_mem ?_
    intro a b ha hb hle
    have hva := hvalid a ((List.mem_insertionSort itemLe).mp ha)
    have hvb := hvalid b ((List.mem_insertionSort itemLe).mp hb)
    exact (dtKey_le_iff hva hvb).mp hle
  · intro a b hkey hsub
    exact List.pair_sublist_insertionSort (Nat.le_of_eq hkey) hsub

/-- Witness for C6: instantiated on the spec's concrete three-holiday
example. -/
theorem c6_witness :
    (sortItems [("Weihnachten", ⟨2024, 12, 25, 0, 0, 0⟩), ("Neujahr", ⟨2024, 1, 1, 0, 0, 0⟩),
        ("Tag der Arbeit", ⟨2024, 5, 1, 0, 0, 0⟩)]).Pairwise (fun a b => dtLe a.2 b.2) :=
  (c6_sorted_stable [("Weihnachten", PyVal.str "2024-12-25"), ("Neujahr", PyVal.str "2024-01-01"),
      ("Tag der Arbeit", PyVal.str "2024-05-01")] _ rfl).1

/-- C7: the bare-string entry shape and the structured
`{datum, hinweis}` shape produce identical calendar documents for the
same name, date text, scope and generation time; in particular the
note text influences nothing and is never emitted. -/
theorem c7_shape_equivalence (name s note scope now : String) :
    holidays_to_ical [(name, PyVal.str s)] scope now
      = holidays_to_ical
          [(name, PyVal.dict [("datum", PyVal.str s), ("hinweis", PyVal.str note)])]
          scope now := by
  have h : extract_date (PyVal.dict [("datum", PyVal.str s), ("hinweis", PyVal.str note)])
      = extract_date (PyVal.str s) := rfl
  simp only [holidays_to_ical, icalLines, collectItems, h]


/-- C8: the conversion is a pure function of its inputs and the
current-time string: two runs over the same holidays and scope differ
at most in what follows `DTSTAMP:` (substituting one timestamp for the
other maps one output onto the other line by line), and within one
document the same timestamp value appears exactly once per event. -/
theorem c8_determinism_modulo_dtstamp (holidays : List (String × PyVal)) (scope : String) :
    (∀ now1 now2, icalLines holidays scope now1
        = (icalLines holidays scope now2).map (List.map (substStamp now2 now1)))
    ∧ (∀ now items ls, collectItems holidays = .ok items →
        icalLines holidays scope now = .ok ls →
        ls.count ("DTSTAMP:" ++ now) = items.length) := by
  constructor
  · intro now1 now2
    unfold icalLines
    cases hc : collectItems holidays with
    | error e => rfl
    | ok items =>
      simp only [Except.map]
      rw [List.map_append, List.map_append, substStamp_headerLines,
        substStamp_flat, substStamp_footer]
  · intro now items ls hc hl
    unfold icalLines at hl
    rw [hc] at hl
    injection hl with hl
    subst hl
    rw [List.count_append, List.count_append, count_headerLines, count_flat, count_footer]
    have := List.length_insertionSort itemLe items
    unfold sortItems
    omega

/-- Witness for C8: the per-document timestamp count evaluated on a
concrete one-holiday document. -/
theorem c8_witness :
    (["BEGIN:VCALENDAR", "VERSION:2.0", "PRODID:-//feiertage-wrapper//DE",
      "BEGIN:VEVENT", "UID:20240101-NATIONAL@feiertage-wrapper", "DTSTAMP:T0",
      "DTSTART;VALUE=DATE:20240101", "SUMMARY:X", "END:VEVENT",
      "END:VCALENDAR"] : List String).count ("DTSTAMP:" ++ "T0") = 1 :=
  (c8_determinism_modulo_dtstamp [("X", PyVal.str "2024-01-01")] "NATIONAL").2 "T0"
    [("X", ⟨2024, 1, 1, 0, 0, 0⟩)] _ rfl rfl

/-- C9 counterexample: the claim states the region parameter is
included if and only if it was supplied; but a supplied empty-string
region is dropped by the truthiness test `if nur_land:`. -/
theorem c9_counterexample_empty_region_dropped :
    (some "" : Option String).isSome = true
      ∧ fetch_params 2024 (some "") Option.none = [("jahr", "2024")] := ⟨rfl, rfl⟩

/-- C9 amended: the query always carries `jahr`; `nur_land` is included
iff it was supplied with a non-empty value (a supplied empty string is
dropped by Python truthiness); `nur_daten` is included iff supplied,
including when supplied as `0`. -/
theorem c9_query_params (jahr : Int) (nur_land : Option String) (nur_daten : Option Int) :
    ("jahr" ∈ (fetch_params jahr nur_land nur_daten).map Prod.fst)
    ∧ (("nur_land" ∈ (fetch_params jahr nur_land nur_daten).map Prod.fst)
        ↔ ∃ s, nur_land = some s ∧ s ≠ "")
    ∧ (("nur_daten" ∈ (fetch_params jahr nur_land nur_daten).map Prod.fst)
        ↔ nur_daten.isSome = true) := by
  unfold fetch_params
  cases nur_land with
  | none => cases nur_daten <;> simp
  | some s =>
    by_cases hs : s = ""
    · subst hs
      cases nur_daten <;> simp
    · cases nur_daten <;> simp [hs]

/-- Witness for C9: the three containment facts evaluated at
`jahr=2024, nur_land=BY, nur_daten=0`. -/
theorem c9_witness :
    ("jahr" ∈ (fetch_params 2024 (some "BY") (some 0)).map Prod.fst)
    ∧ (("nur_land" ∈ (fetch_params 2024 (some "BY") (some 0)).map Prod.fst)
        ↔ ∃ s, (some "BY" : Option String) = some s ∧ s ≠ "")
    ∧ (("nur_daten" ∈ (fetch_params 2024 (some "BY") (some 0)).map Prod.fst)
        ↔ (some (0 : Int)).isSome = true) :=
  c9_query_params 2024 (some "BY") (some 0)

/-- C10: a dict entry without a `datum` key, or with an empty-string or
`None` `datum`, is silently dropped (no event, no error); an entry
value that is neither a dict nor a string is stringified, and so is
kept exactly when that string form parses; and a dropped entry
contributes nothing to the collected items. -/
theorem c10_extract_date_edge_cases :
    (∀ es : List (String × PyVal), es.lookup "datum" = Option.none →
        extract_date (.dict es) = .ok Option.none)
    ∧ (∀ es : List (String × PyVal), es.lookup "datum" = some (PyVal.str "") →
        extract_date (.dict es) = .ok Option.none)
    ∧ (∀ es : List (String × PyVal), es.lookup "datum" = some PyVal.none →
        extract_date (.dict es) = .ok Option.none)
    ∧ (∀ v, isDictV v = false → isStrV v = false →
        extract_date v = .ok (fromisoformat (py_str v)))
    ∧ (∀ name v rest, extract_date v = .ok Option.none →
        collectItems ((name, v) :: rest) = collectItems rest) := by
  refine ⟨?_, ?_, ?_, fun v h1 h2 => extract_date_nondict_nonstr h1 h2, ?_⟩
  · intro es h
    apply extract_date_dict_falsy
    rw [h]
    rfl
  · intro es h
    apply extract_date_dict_falsy
    rw [h]
    rfl
  · intro es h
    apply extract_date_dict_falsy
    rw [h]
    rfl
  · intro name v rest h
    conv_lhs => rw [collectItems]
    rw [h]
    cases hc : collectItems rest <;> rfl

/-- Witness for C10: a dict without `datum` is dropped, and an integer
value is stringified before parsing. -/
theorem c10_witness :
    extract_date (PyVal.dict [("hinweis", PyVal.str "x")]) = .ok Option.none
    ∧ extract_date (PyVal.int 5) = .ok (fromisoformat (py_str (PyVal.int 5))) :=
  ⟨c10_extract_date_edge_cases.1 [("hinweis", PyVal.str "x")] rfl,
   c10_extract_date_edge_cases.2.2.2.1 (PyVal.int 5) rfl rfl⟩


end Feiertage
